import Mathlib

/-!
Verification development for the Mindful Echo chat application
(`src/main.py`), a Streamlit front end over a LangChain
`ConversationChain` backed by the Groq inference API.

The embedding keeps the source's two distinct history stores apart:

* `AppState.messages` — the displayed transcript
  (`st.session_state.messages`), seeded with an assistant greeting and
  also receiving the apology turn on a gateway error;
* `Chain.chat_history` — the `ConversationBufferMemory` of the
  LangChain chain, which is what the prompt template replays into each
  request to the inference gateway.  It is updated only after a
  successful gateway call (LangChain's `save_context`), so the greeting
  and error turns never enter it.

The external gateway call is abstracted by a `GatewayResult` oracle
value: the pure step functions are parameterised by the outcome the
external service would produce, which lets us reason about both the
success and the exception path of the `try/except` in the source.
-/

namespace MindfulEcho

/-- Message roles, as used by the chat prompt template and the
session-state message dictionaries in `src/main.py`. -/
inductive Role where
  | system
  | user
  | assistant
deriving DecidableEq, Repr

/-- One chat message: a role tag plus text content, mirroring the
`{"role": ..., "content": ...}` dictionaries of `src/main.py`. -/
structure Turn where
  role : Role
  content : String
deriving DecidableEq, Repr

/-- The constant system instruction of `src/main.py` lines 28-48
(Python triple-quoted string: leading and trailing newline included). -/
def SYSTEM_PROMPT : String :=
"
You are 'Mindful Echo', a supportive and empathetic AI companion designed for mental well-being conversations.
Your goal is to listen actively, offer encouragement, and provide a safe, non-judgmental space for users to express their feelings.

**Guidelines:**
*   **Be Kind and Empathetic:** Respond with warmth, understanding, and compassion. Validate the user's feelings.
*   **Listen Actively:** Pay close attention to what the user shares. Ask clarifying questions gently if needed.
*   **Be Non-Judgmental:** Create a safe space where the user feels comfortable sharing without fear of criticism.
*   **Offer General Support & Encouragement:** Provide positive affirmations and gentle encouragement. You can suggest general, widely accepted well-being practices (like mindfulness, deep breathing, taking a walk) if appropriate, but frame them as suggestions, not directives.
*   **Maintain Neutrality:** Avoid giving personal opinions, specific advice (especially medical, financial, or legal), or making decisions for the user.
*   **Do Not Diagnose:** You are NOT a therapist or medical professional. Do not attempt to diagnose any condition.
*   **Prioritize Safety:** If a user expresses thoughts of harming themselves or others, gently guide them towards professional help immediately. Provide contact information for crisis hotlines or emergency services (you can state: \"If you are in immediate danger, please contact your local emergency services or a crisis hotline like [mention a relevant hotline, e.g., the National Suicide Prevention Lifeline at 988 in the US].\").
*   **Manage Limitations:** Remind the user that you are an AI and cannot replace professional human support. If the conversation becomes too complex or requires professional expertise, gently suggest seeking help from a qualified therapist, counselor, or doctor.
*   **Use Conversational History:** Remember previous parts of the conversation to provide relevant and coherent responses.

**Example Interaction Start:**
User: I've been feeling really down lately.
Mindful Echo: I'm really sorry to hear you've been feeling down. It sounds tough. I'm here to listen if you'd like to share more about what's been going on. Remember, your feelings are valid.

Remember your core purpose: To be a supportive listener and a beacon of gentle encouragement.
"

/-- The initial assistant greeting appended when `st.session_state.messages`
is first created (`src/main.py` lines 116-121). -/
def INITIAL_GREETING : String :=
  "Hello! I'm Mindful Echo. How are you feeling today? I'm here to listen without judgment."

/-- The greeting installed by the Clear Chat History button
(`src/main.py` lines 172-175). -/
def RESET_GREETING : String :=
  "Chat history cleared. How can I help you now?"

/-- The fixed apology text appended to the transcript when the gateway
call raises (`src/main.py` line 166). -/
def ERROR_MESSAGE : String :=
  "Sorry, I encountered a problem processing your request. Please try again."

/-- The error reported when the API key is missing
(`src/main.py` line 63). -/
def MISSING_KEY_ERROR : String :=
  "Groq API key is missing. Please set it in .env or Streamlit secrets."

/-- The LangChain `ConversationChain` state that matters to the claims:
its `ConversationBufferMemory` message list (`memory_key="chat_history"`,
`return_messages=True`; `src/main.py` lines 74-77). -/
structure Chain where
  chat_history : List Turn
deriving DecidableEq, Repr

/-- `ConversationBufferMemory.save_context`: after a successful run the
buffer memory appends the human input and the AI output, in that order,
to the stored message list. -/
def save_context (m : List Turn) (inp output : String) : List Turn :=
  m ++ [Turn.mk Role.user inp, Turn.mk Role.assistant output]

/-- The `ChatPromptTemplate` of `src/main.py` lines 50-56: a system
message carrying `SYSTEM_PROMPT`, then the `chat_history` placeholder
filled from memory, then the new human input. -/
def prompt_template (chat_history : List Turn) (inp : String) : List Turn :=
  Turn.mk Role.system SYSTEM_PROMPT :: (chat_history ++ [Turn.mk Role.user inp])

/-- The message list a chain submits to the inference gateway for a new
user input: the prompt template applied to the chain's buffer memory. -/
def submitted_messages (c : Chain) (inp : String) : List Turn :=
  prompt_template c.chat_history inp

/-- Outcome of the external Groq call for one request: either generated
text or an exception (network failure, auth rejection, malformed
response).  The call itself is outside the program, so each step is
parameterised by this oracle value. -/
inductive GatewayResult where
  | ok (text : String)
  | err (msg : String)
deriving DecidableEq, Repr

/-- `conversation_chain.invoke` (`src/main.py` line 155), with the
external call abstracted by `r`: on success LangChain saves the
exchange into the buffer memory and returns the response text; on
failure the exception propagates and the memory is left untouched. -/
def invoke (c : Chain) (inp : String) (r : GatewayResult) :
    Except String (Chain × String) :=
  match r with
  | GatewayResult.ok text =>
      Except.ok (Chain.mk (save_context c.chat_history inp text), text)
  | GatewayResult.err msg => Except.error msg

/-- `initialize_chain` (`src/main.py` lines 60-89): with a falsy key
(Python `not api_key`: absent, or present but empty) it reports the
missing-key error and stops; otherwise it builds a chain with fresh
empty memory. -/
def initialize_chain (api_key : Option String) : Except String Chain :=
  if api_key = none ∨ api_key = some "" then Except.error MISSING_KEY_ERROR
  else Except.ok (Chain.mk [])

/-- The per-session state: the chain stored in
`st.session_state.conversation_chain` and the displayed transcript
`st.session_state.messages`. -/
structure AppState where
  conversation_chain : Chain
  messages : List Turn
deriving DecidableEq, Repr

/-- The displayed transcript right after session initialization
(`src/main.py` lines 116-121): a single assistant greeting. -/
def initial_messages : List Turn :=
  [Turn.mk Role.assistant INITIAL_GREETING]

/-- Session startup (`src/main.py` lines 113-121): initialize the chain
from the key — halting on a missing key — then seed the displayed
transcript with the greeting. -/
def startApp (api_key : Option String) : Except String AppState :=
  (initialize_chain api_key).map (fun c => AppState.mk c initial_messages)

/-- The user-input handler (`src/main.py` lines 132-169): append the
user turn to the displayed transcript, invoke the chain; on success
append the AI response, on exception append the fixed apology text and
keep the chain as it was.  The handler is a total function: the
`except` block catches every exception, so none escapes it. -/
def handle_user_input (s : AppState) (inp : String) (r : GatewayResult) :
    AppState :=
  let withUser := s.messages ++ [Turn.mk Role.user inp]
  match invoke s.conversation_chain inp r with
  | Except.ok (c2, aiText) =>
      AppState.mk c2 (withUser ++ [Turn.mk Role.assistant aiText])
  | Except.error _ =>
      AppState.mk s.conversation_chain
        (withUser ++ [Turn.mk Role.assistant ERROR_MESSAGE])

/-- The Clear Chat History button (`src/main.py` lines 172-178):
replaces the displayed transcript with a single greeting turn and
re-initializes the chain, clearing its memory. -/
def clear_chat_history (_s : AppState) : AppState :=
  AppState.mk (Chain.mk []) [Turn.mk Role.assistant RESET_GREETING]

/-- One UI interaction after startup: either a submitted user input
(together with the gateway's outcome for it) or a press of the Clear
Chat History button. -/
inductive Event where
  | userMsg (inp : String) (r : GatewayResult)
  | clearHistory

/-- One step of the session. -/
def step (s : AppState) : Event → AppState
  | Event.userMsg inp r => handle_user_input s inp r
  | Event.clearHistory => clear_chat_history s

/-- The session state reached from a fresh session after a sequence of
interactions. -/
def run (evs : List Event) : AppState :=
  evs.foldl step (AppState.mk (Chain.mk []) initial_messages)

/-- `mirror of st.session_state.messages.append`: one turn is appended
at the end of the transcript list. -/
def appendTurn (msgs : List Turn) (t : Turn) : List Turn :=
  msgs ++ [t]

/-- A message list made of consecutive user/assistant exchange pairs —
the shape `save_context` maintains in the buffer memory. -/
inductive IsPairedHistory : List Turn → Prop where
  | nil : IsPairedHistory []
  | cons (u a : String) (rest : List Turn) :
      IsPairedHistory rest →
      IsPairedHistory (Turn.mk Role.user u :: Turn.mk Role.assistant a :: rest)

lemma IsPairedHistory.append_pair {h : List Turn} (u a : String)
    (hp : IsPairedHistory h) :
    IsPairedHistory (h ++ [Turn.mk Role.user u, Turn.mk Role.assistant a]) := by
  induction hp with
  | nil => exact IsPairedHistory.cons u a [] IsPairedHistory.nil
  | cons u' a' rest _ ih =>
      simpa using IsPairedHistory.cons u' a'
        (rest ++ [Turn.mk Role.user u, Turn.mk Role.assistant a]) ih

lemma IsPairedHistory.roles {h : List Turn} (hp : IsPairedHistory h) :
    ∀ t ∈ h, t.role = Role.user ∨ t.role = Role.assistant := by
  induction hp with
  | nil => intro t ht; cases ht
  | cons u a rest _ ih =>
      intro t ht
      simp only [List.mem_cons] at ht
      rcases ht with rfl | rfl | h2
      · left; rfl
      · right; rfl
      · exact ih t h2

lemma memory_invariant_step (s : AppState) (e : Event)
    (h : IsPairedHistory s.conversation_chain.chat_history) :
    IsPairedHistory (step s e).conversation_chain.chat_history := by
  cases e with
  | userMsg inp r =>
      cases r with
      | ok text =>
          simpa [step, handle_user_input, invoke, save_context] using
            IsPairedHistory.append_pair inp text h
      | err msg => simpa [step, handle_user_input, invoke] using h
  | clearHistory => exact IsPairedHistory.nil

lemma memory_invariant_foldl (s : AppState)
    (h : IsPairedHistory s.conversation_chain.chat_history)
    (evs : List Event) :
    IsPairedHistory ((evs.foldl step s).conversation_chain.chat_history) := by
  induction evs generalizing s with
  | nil => exact h
  | cons e tl ih => exact ih (step s e) (memory_invariant_step s e h)

lemma memory_invariant_run (evs : List Event) :
    IsPairedHistory ((run evs).conversation_chain.chat_history) :=
  memory_invariant_foldl _ IsPairedHistory.nil evs

lemma head_assistant_step (s : AppState) (e : Event)
    (h : ∃ t rest, s.messages = t :: rest ∧ t.role = Role.assistant) :
    ∃ t rest, (step s e).messages = t :: rest ∧ t.role = Role.assistant := by
  cases e with
  | userMsg inp r =>
      obtain ⟨t, rest, hm, hr⟩ := h
      cases r with
      | ok text =>
          exact ⟨t, rest ++ [Turn.mk Role.user inp] ++ [Turn.mk Role.assistant text],
            by simp [step, handle_user_input, invoke, hm], hr⟩
      | err msg =>
          exact ⟨t, rest ++ [Turn.mk Role.user inp] ++ [Turn.mk Role.assistant ERROR_MESSAGE],
            by simp [step, handle_user_input, invoke, hm], hr⟩
  | clearHistory =>
      exact ⟨Turn.mk Role.assistant RESET_GREETING, [], rfl, rfl⟩

lemma head_assistant_foldl (s : AppState)
    (h : ∃ t rest, s.messages = t :: rest ∧ t.role = Role.assistant)
    (evs : List Event) :
    ∃ t rest, (evs.foldl step s).messages = t :: rest ∧ t.role = Role.assistant := by
  induction evs generalizing s with
  | nil => exact h
  | cons e tl ih => exact ih (step s e) (head_assistant_step s e h)

/-- C1: every request a reachable session submits to the inference
gateway is one system-instruction message, then the buffer-memory
history — consecutive user/assistant exchange pairs, none of them of
system role — then exactly one new user turn carrying the input. -/
theorem gateway_request_wellformed (evs : List Event) (inp : String) :
    ∃ hist : List Turn,
      submitted_messages (run evs).conversation_chain inp
        = Turn.mk Role.system SYSTEM_PROMPT :: (hist ++ [Turn.mk Role.user inp])
      ∧ IsPairedHistory hist
      ∧ ∀ t ∈ hist, t.role = Role.user ∨ t.role = Role.assistant := by
  refine ⟨(run evs).conversation_chain.chat_history, rfl, memory_invariant_run evs, ?_⟩
  exact (memory_invariant_run evs).roles

/-- C2: for every chain state and new input, the assembled message list
starts with the system instruction, ends with a user turn carrying the
new input, and has length equal to the replayed history's length plus
two. -/
theorem build_output_shape (c : Chain) (inp : String) :
    (submitted_messages c inp).head? = some (Turn.mk Role.system SYSTEM_PROMPT)
    ∧ (submitted_messages c inp).getLast? = some (Turn.mk Role.user inp)
    ∧ (submitted_messages c inp).length = c.chat_history.length + 2 := by
  refine ⟨rfl, ?_, ?_⟩
  · show (Turn.mk Role.system SYSTEM_PROMPT :: (c.chat_history ++ [Turn.mk Role.user inp])).getLast?
      = some (Turn.mk Role.user inp)
    rw [← List.cons_append, List.getLast?_concat]
  · simp [submitted_messages, prompt_template]

/-- C3: when the gateway call raises, the displayed transcript still
gains exactly the user turn and the fixed apology assistant turn, in
that order; the handler is a total function (the `except` block catches
the exception), so the session state survives for the next input. -/
theorem gateway_error_appends_apology (s : AppState) (inp msg : String) :
    (handle_user_input s inp (GatewayResult.err msg)).messages
      = s.messages ++ [Turn.mk Role.user inp, Turn.mk Role.assistant ERROR_MESSAGE] := by
  simp [handle_user_input, invoke]

/-- C4: whatever the prior state, the Clear Chat History reset leaves a
displayed transcript of length exactly one whose single turn is the
fixed assistant greeting. -/
theorem reset_yields_single_greeting (s : AppState) :
    (clear_chat_history s).messages.length = 1
    ∧ (clear_chat_history s).messages = [Turn.mk Role.assistant RESET_GREETING] :=
  ⟨rfl, rfl⟩

/-- C5: from the state whose exchange history is
[user:"hi", assistant:"hello"] — reached after the first successful
exchange — the request assembled for the new input "how are you" is
exactly [system:INSTR, user:"hi", assistant:"hello", user:"how are you"]. -/
theorem example_assembly_exact :
    (handle_user_input (AppState.mk (Chain.mk []) initial_messages) "hi"
        (GatewayResult.ok "hello")).conversation_chain.chat_history
      = [Turn.mk Role.user "hi", Turn.mk Role.assistant "hello"]
    ∧ submitted_messages
        (handle_user_input (AppState.mk (Chain.mk []) initial_messages) "hi"
          (GatewayResult.ok "hello")).conversation_chain "how are you"
      = [Turn.mk Role.system SYSTEM_PROMPT, Turn.mk Role.user "hi",
         Turn.mk Role.assistant "hello", Turn.mk Role.user "how are you"] :=
  ⟨rfl, rfl⟩

/-- C6: the reset operation is idempotent — a second Clear Chat History
press yields exactly the same state as the first, with no accumulation. -/
theorem reset_idempotent (s : AppState) :
    clear_chat_history (clear_chat_history s) = clear_chat_history s := rfl

/-- C7: appending any sequence of turns one by one leaves the transcript
equal to the prior contents followed by exactly those turns in insertion
order, so reading it back past the prior contents returns them with no
loss, duplication or reordering. -/
theorem transcript_preserves_insertion_order (prior ts : List Turn) :
    List.foldl appendTurn prior ts = prior ++ ts
    ∧ (List.foldl appendTurn prior ts).drop prior.length = ts := by
  have h : ∀ (p : List Turn), List.foldl appendTurn p ts = p ++ ts := by
    induction ts with
    | nil => intro p; simp
    | cons t tl ih =>
        intro p
        calc List.foldl appendTurn p (t :: tl)
            = List.foldl appendTurn (p ++ [t]) tl := rfl
          _ = (p ++ [t]) ++ tl := ih (p ++ [t])
          _ = p ++ (t :: tl) := by simp
  refine ⟨h prior, ?_⟩
  rw [h prior, List.drop_left]

/-- C8: with the credential absent, startup reports the missing-key
error and halts, so no session state — and hence no chat-input path —
is ever produced. -/
theorem missing_key_halts_startup :
    startApp none = Except.error MISSING_KEY_ERROR
    ∧ ∀ s : AppState, startApp none ≠ Except.ok s := by
  constructor
  · rfl
  · intro s h
    rw [show startApp none = Except.error MISSING_KEY_ERROR from rfl] at h
    exact Except.noConfusion h

/-- C9: when the gateway call raises, the chain's buffer memory is left
exactly as it was — neither the failed input nor the apology enters it —
so every later request is assembled as if the failed exchange had never
happened. -/
theorem gateway_error_preserves_chain_memory (s : AppState) (inp msg : String) :
    (handle_user_input s inp (GatewayResult.err msg)).conversation_chain
      = s.conversation_chain
    ∧ ∀ next : String,
        submitted_messages
          ((handle_user_input s inp (GatewayResult.err msg)).conversation_chain) next
        = submitted_messages s.conversation_chain next :=
  ⟨rfl, fun _ => rfl⟩

/-- C10: from initialization onward, after any sequence of exchanges,
gateway failures and resets, the displayed transcript is non-empty and
its first turn has assistant role. -/
theorem transcript_head_always_assistant (evs : List Event) :
    ∃ t rest, (run evs).messages = t :: rest ∧ t.role = Role.assistant :=
  head_assistant_foldl _ ⟨Turn.mk Role.assistant INITIAL_GREETING, [], rfl, rfl⟩ evs

end MindfulEcho
